import Mathlib

/-!
Verification of the personal-assistant bot (tasks / habits / expenses).

This file gives a shallow embedding of the temporal helpers and habit logic
of db.py, the settings tools of tools/settings.py, the tool dispatcher of
tools/__init__.py and the LLM conversation loop of bot.py, and proves the
behavioural claims about them.

Modelling conventions:
  - instants are integers counting microseconds since 1970-01-01T00:00:00Z
    (the resolution of the Python datetimes the code stores); ISO-8601
    timestamp strings are modelled by these numbers, and the comparisons
    the SQL performs on uniformly formatted ISO strings are modelled by
    integer comparison;
  - a timezone is modelled by its UTC offset; where the code asks the zone
    database for the offset at a given wall-clock time we pass a function
    from local wall time to offset (for fixed-offset zones a constant);
  - the zone-name validity check performed by constructing zoneinfo.ZoneInfo
    is modelled by a Boolean predicate on zone names (the tz database is
    external data);
  - database tables are association lists, SQL queries are list operations;
  - Python exceptions raised by tool handlers are modelled by Except;
  - the language model is an oracle function from the accumulated message
    list to the assistant message of the next round.
-/

namespace Assistant

/-! ### Calendar arithmetic (microsecond instants and civil dates) -/

/-- Microseconds in one calendar day. -/
def dayUs : Int := 86400000000

/-- Microseconds in one second. -/
def secUs : Int := 1000000

/-- Gregorian leap-year test. -/
def isLeap (y : Nat) : Bool := (y % 4 == 0 && y % 100 != 0) || (y % 400 == 0)

/-- Days before month m (1..12) in a non-leap year. -/
def monthOffset (m : Nat) : Nat :=
  [0, 31, 59, 90, 120, 151, 181, 212, 243, 273, 304, 334].getD (m - 1) 0

/-- Days in year y strictly before month m. -/
def daysBeforeMonth (y m : Nat) : Nat :=
  monthOffset m + (if 2 < m && isLeap y then 1 else 0)

/-- Days strictly before year y, counting from 0001-01-01. -/
def daysBeforeYear (y : Nat) : Nat :=
  365 * (y - 1) + (y - 1) / 4 - (y - 1) / 100 + (y - 1) / 400

/-- Zero-based day number of a civil date, counting from 0001-01-01. -/
def rataDie (y m d : Nat) : Nat :=
  daysBeforeYear y + daysBeforeMonth y m + (d - 1)

/-- Day number of a civil date relative to the Unix epoch 1970-01-01. -/
def civilDays (y m d : Nat) : Int :=
  (rataDie y m d : Int) - (rataDie 1970 1 1 : Int)

/-- Microsecond instant of a civil date-time (read as a UTC wall clock). -/
def usOfCivil (y mo d h mi s us : Nat) : Int :=
  civilDays y mo d * dayUs + ((h * 3600 + mi * 60 + s : Nat) : Int) * secUs + (us : Int)

/-! ### Streak calculator: db.py get_habit_streak_count

The SQL fetches date(completed_at) for every completion of the habit,
ordered descending (one row per completion, no DISTINCT), and the Python
loop walks the resulting list: the first entry contributes 1, every later
entry whose difference from the previously counted entry is exactly one day
contributes 1 more, and any other difference breaks the walk.  Calendar
days are integer day numbers, so the Python (prev - curr).days on midnight
datetimes is exact integer subtraction. -/

/-- The walk of get_habit_streak_count after the first row: prev is the last
counted day, streak the count so far. -/
def streakGo : Int → Nat → List Int → Nat
  | _, streak, [] => streak
  | prev, streak, curr :: rest =>
    if prev - curr = 1 then streakGo curr (streak + 1) rest else streak

/-- db.py get_habit_streak_count, as a function of the fetched day list
(dates of completions, most recent first, duplicates preserved). -/
def get_habit_streak_count (dates : List Int) : Nat :=
  match dates with
  | [] => 0
  | d :: rest => streakGo d 1 rest

/-- The list [t, t-1, ..., t-n+1]: n consecutive calendar days sorted most
recent first. -/
def descRun (t : Int) : Nat → List Int
  | 0 => []
  | n + 1 => t :: descRun (t - 1) n

/-! ### Habit completion recording: db.py complete_habit

Together with the helpers get_user_local_date and
_get_utc_range_for_local_date it calls.  The user timezone is a fixed UTC
offset o (in microseconds) where a single offset suffices. -/

/-- Local calendar day number of a UTC instant under UTC offset o
(db.py get_user_local_date: the date of datetime.now in the zone). -/
def localDate (t o : Int) : Int := (t + o) / dayUs

/-- db.py _get_utc_range_for_local_date: midnight of the local day d and
midnight plus one day minus one microsecond, each converted to UTC by
subtracting the offset the zone assigns to that local wall time. -/
def _get_utc_range_for_local_date (offsetAt : Int → Int) (d : Int) : Int × Int :=
  let startLocal := d * dayUs
  let endLocal := startLocal + dayUs - 1
  (startLocal - offsetAt startLocal, endLocal - offsetAt endLocal)

/-- The habits and habit_completions tables: rows (habit_id, user_id) and
(habit_id, completed_at in UTC microseconds). -/
structure DBState where
  habits : List (Nat × Nat)
  completions : List (Nat × Int)

/-- The WHERE clause of the habits ownership lookup in complete_habit. -/
def ownsHabit (habit_id user_id : Nat) (p : Nat × Nat) : Bool :=
  p.1 == habit_id && p.2 == user_id

/-- The WHERE clause of the duplicate check in complete_habit: a completion
of this habit with s <= completed_at <= e (both endpoints inclusive, as in
the SQL). -/
def inRange (habit_id : Nat) (s e : Int) (c : Nat × Int) : Bool :=
  c.1 == habit_id && decide (s ≤ c.2) && decide (c.2 ≤ e)

/-- db.py complete_habit at current instant nowUs for a user whose timezone
has fixed offset o: ownership check, duplicate check over the UTC range of
the current local day, then insert of the current instant. -/
def complete_habit (o : Int) (st : DBState) (habit_id user_id : Nat) (nowUs : Int) :
    Bool × DBState :=
  if st.habits.any (ownsHabit habit_id user_id) then
    let today := localDate nowUs o
    let rng := _get_utc_range_for_local_date (fun _ => o) today
    if st.completions.any (inRange habit_id rng.1 rng.2) then (true, st)
    else (true, ⟨st.habits, st.completions ++ [(habit_id, nowUs)]⟩)
  else (false, st)

/-- Number of completion rows of a habit inside the UTC range [s, e]. -/
def countInRange (st : DBState) (habit_id : Nat) (s e : Int) : Nat :=
  st.completions.countP (inRange habit_id s e)

/-! ### Temporal normalizer: db.py _deadline_local_to_utc -/

/-- The truncation to whole seconds performed by formatting with
strftime %Y-%m-%dT%H:%M:%S. -/
def truncSec (t : Int) : Int := (t / secUs) * secUs

/-- A parsed deadline literal: zone-naive wall-clock instant, or zone-aware
wall-clock instant carrying an explicit UTC offset. -/
inductive DeadlineLit
  | naive (wall : Int)
  | aware (wall : Int) (offset : Int)

/-- db.py _deadline_local_to_utc: an aware literal is converted to UTC with
its own offset; a naive literal is attached to the user zone and converted;
either way the result is formatted at whole-second precision. -/
def _deadline_local_to_utc (offsetAt : Int → Int) : DeadlineLit → Int
  | .aware wall ofs => truncSec (wall - ofs)
  | .naive wall => truncSec (wall - offsetAt wall)

/-- Conversion of a UTC instant back to the wall clock of a fixed-offset
zone (datetime.astimezone toward the zone). -/
def utcToLocal (u o : Int) : Int := u + o

/-- UTC offset of Asia/Kolkata (+05:30, no DST), in microseconds. -/
def kolkataOffset : Int := 19800 * secUs

/-- UTC offset of America/New_York during 2025 as a function of local wall
time, from the tz database rules: -04:00 between the DST start
2025-03-09T02:00 local and the DST end 2025-11-02T02:00 local, -05:00
otherwise. -/
def nyOffsetAt (tLocal : Int) : Int :=
  if usOfCivil 2025 3 9 2 0 0 0 ≤ tLocal ∧ tLocal < usOfCivil 2025 11 2 2 0 0 0
  then -(14400 * secUs) else -(18000 * secUs)

/-! ### User settings: tools/settings.py and db.py timezone accessors -/

/-- tools/settings.py TZ_ALIASES. -/
def TZ_ALIASES : List (String × String) :=
  [("IST", "Asia/Kolkata"), ("EST", "America/New_York"), ("PST", "America/Los_Angeles"),
   ("CST", "America/Chicago"), ("GMT", "Europe/London"), ("AEST", "Australia/Sydney")]

/-- Python str.strip, computed on the underlying character list. -/
def pyStrip (s : String) : String :=
  ⟨((s.data.dropWhile Char.isWhitespace).reverse.dropWhile Char.isWhitespace).reverse⟩

/-- Python str.upper for the ASCII zone strings involved, computed on the
underlying character list. -/
def pyUpper (s : String) : String := ⟨s.data.map Char.toUpper⟩

/-- tools/settings.py _resolve_timezone: strip, reject empty, expand an
alias, then validate against the zone database (modelled by isValidZone). -/
def _resolve_timezone (isValidZone : String → Bool) (tz : String) : Except String String :=
  let tz := pyStrip tz
  if tz = "" then .error "Timezone cannot be empty"
  else
    let resolved := (TZ_ALIASES.lookup (pyUpper tz)).getD tz
    if isValidZone resolved then .ok resolved
    else .error ("Invalid timezone: " ++ tz)

/-- The user_settings table restricted to the timezone column:
user_id (primary key) mapped to the stored timezone string. -/
abbrev Settings := List (Nat × String)

/-- db.py set_user_timezone: INSERT ... ON CONFLICT(user_id) DO UPDATE. -/
def set_user_timezone (s : Settings) (user_id : Nat) (tz : String) : Settings :=
  if (s.lookup user_id).isSome then
    s.map (fun p => if p.1 == user_id then (p.1, tz) else p)
  else (user_id, tz) :: s

/-- db.py get_user_timezone: SELECT timezone WHERE user_id = ? AND
timezone != 'UTC'; a stored 'UTC' row or a missing row both yield None. -/
def get_user_timezone (s : Settings) (user_id : Nat) : Option String :=
  match s.lookup user_id with
  | some tz => if tz ≠ "UTC" then some tz else none
  | none => none

/-- The settings tool invocations relevant here (get_current_time, which
reads the real clock, is outside the modelled fragment). -/
inductive SettingsTool
  | set_timezone (timezone : String)
  | get_timezone

/-- Result payloads of execute_settings_tool for the two modelled tools. -/
inductive SettingsResult
  | setOk (timezone message : String)
  | setErr (error : String)
  | tzInfo (timezone : Option String) (message : String)
deriving DecidableEq

/-- tools/settings.py execute_settings_tool on the modelled tools, returning
the result payload and the user_settings state after the call. -/
def execute_settings_tool (isValidZone : String → Bool) (s : Settings) (user_id : Nat) :
    SettingsTool → SettingsResult × Settings
  | .set_timezone tzArg =>
    match _resolve_timezone isValidZone tzArg with
    | .ok tz => (.setOk tz ("Timezone set to " ++ tz), set_user_timezone s user_id tz)
    | .error e => (.setErr e, s)
  | .get_timezone =>
    match get_user_timezone s user_id with
    | some tz => (.tzInfo (some tz) ("Your timezone is " ++ tz), s)
    | none =>
      (.tzInfo none "Timezone not set; using UTC by default. Set it for accurate reminders.", s)

/-- A concrete model of the tz database for witnesses: the zone names this
repository mentions.  Mars/Nowhere is not a zone. -/
def tzdbZones : List String :=
  ["UTC", "Asia/Kolkata", "America/New_York", "America/Los_Angeles",
   "America/Chicago", "Europe/London", "Australia/Sydney"]

/-- Validity predicate of the concrete tz database model. -/
def tzdbValid (z : String) : Bool := tzdbZones.contains z

/-! ### Tool dispatcher: tools/__init__.py execute_tool -/

/-- The loosely typed argument map handed to a handler. -/
abbrev Args := List (String × String)

/-- A domain handler as called by execute_tool: it receives the tool name,
the arguments and the user id, and either returns the serialized result or
raises (Except.error carries str(e)).  Serialization inside the try block is
part of the handler's failure surface. -/
abbrev Handler := String → Args → Nat → Except String String

/-- The structured error payload json.dumps(\x7b"error": message\x7d)
produced at the dispatch boundary (string escaping elided). -/
def jsonError (msg : String) : String := "\x7b\"error\": \"" ++ msg ++ "\"\x7d"

/-- The keys of tools/__init__.py AVAILABLE_FUNCTIONS (note: the schema
entry get_current_time has no key here). -/
def AVAILABLE_FUNCTIONS_keys : List String :=
  ["add_task", "list_tasks", "delete_task",
   "add_habit", "list_habits", "complete_habit", "get_habit_streak",
   "add_expense", "list_expenses", "get_spending_summary", "get_recommendations",
   "set_timezone", "get_timezone"]

/-- tools/__init__.py execute_tool: unknown names yield a structured error
payload; a registered handler is invoked inside a try block whose except
clause converts any exception into the structured error payload. -/
def execute_tool (fns : List (String × Handler)) (tool_name : String) (arguments : Args)
    (user_id : Nat) : String :=
  match fns.lookup tool_name with
  | none => jsonError ("Unknown tool: " ++ tool_name)
  | some fn =>
    match fn tool_name arguments user_id with
    | .ok result => result
    | .error e => jsonError e

/-- A one-entry registry whose handler always raises, for the dispatcher
witness. -/
def failingHandlers : List (String × Handler) :=
  [("boom_tool", fun _ _ _ => .error "kaboom")]

/-! ### Conversation loop: bot.py run_llm_loop -/

/-- One tool call requested by the model (tc.id, tc.function.name,
tc.function.arguments as the raw JSON string). -/
structure ToolCall where
  id : String
  name : String
  arguments : String

/-- One assistant message: optional text content and requested tool calls
(None and the empty list are both modelled by []). -/
structure AssistantMsg where
  content : Option String
  tool_calls : List ToolCall

/-- A conversation message as accumulated by the loop. -/
inductive Msg
  | system (content : String)
  | user (content : String)
  | assistant (m : AssistantMsg)
  | tool (tool_call_id : String) (name : String) (content : String)

/-- Python truthiness of msg.content: a non-empty string. -/
def truthy : Option String → Bool
  | none => false
  | some s => !(s == "")

/-- bot.py SYSTEM_PROMPT (contents irrelevant to the claims; abbreviated). -/
def SYSTEM_PROMPT : String :=
  "You are a helpful personal assistant for tasks, habits, and money tracking."

/-- bot.py MAX_TOOL_ITERATIONS. -/
def MAX_TOOL_ITERATIONS : Nat := 5

/-- The fixed fallback returned when the round budget is exhausted. -/
def LIMIT_MESSAGE : String :=
  "I hit a limit on processing. Please try again with a simpler request."

/-- The fallback returned when the model sends neither text nor tool calls. -/
def EMPTY_FALLBACK : String := "Sorry, I couldn\x27t process that."

/-- The hardcoded tuple bot.py checks tool-call names against before
dispatching (the settings tools are absent from it). -/
def allowedToolNames : List String :=
  ["add_task", "list_tasks", "delete_task",
   "add_habit", "list_habits", "complete_habit", "get_habit_streak",
   "add_expense", "list_expenses", "get_spending_summary", "get_recommendations"]

/-- The names in tools/__init__.py TOOLS_SCHEMA, the tool catalog sent to
the model (task + habit + money + settings tools). -/
def TOOLS_SCHEMA_names : List String :=
  ["add_task", "list_tasks", "delete_task",
   "add_habit", "list_habits", "complete_habit", "get_habit_streak",
   "add_expense", "list_expenses", "get_spending_summary", "get_recommendations",
   "set_timezone", "get_timezone", "get_current_time"]

/-- The per-round tool-call processing of bot.py: walk the requested calls
in order; a name not in the hardcoded tuple is skipped (continue); any other
name is dispatched through exec and one tool message is appended.  Returns
the extended message list and the accumulated list of dispatched names. -/
def processToolCalls (exec : String → String → String) :
    List ToolCall → List Msg → List String → List Msg × List String
  | [], msgs, dispatched => (msgs, dispatched)
  | tc :: rest, msgs, dispatched =>
    if allowedToolNames.contains tc.name then
      processToolCalls exec rest
        (msgs ++ [Msg.tool tc.id tc.name (exec tc.name tc.arguments)])
        (dispatched ++ [tc.name])
    else
      processToolCalls exec rest msgs dispatched

/-- The body of bot.py run_llm_loop: fuel counts remaining rounds of the
for-loop; calls counts model invocations made so far; dispatched records
every name handed to execute_tool.  Returns the reply string, the total
number of model calls, and the dispatched names. -/
def run_llm_loop_go (respond : List Msg → AssistantMsg) (exec : String → String → String) :
    Nat → List Msg → Nat → List String → String × Nat × List String
  | 0, _, calls, dispatched => (LIMIT_MESSAGE, calls, dispatched)
  | fuel + 1, msgs, calls, dispatched =>
    let m := respond msgs
    if truthy m.content && m.tool_calls.isEmpty then
      (m.content.getD "", calls + 1, dispatched)
    else if m.tool_calls.isEmpty then
      ((match m.content with
        | some s => if s == "" then EMPTY_FALLBACK else s
        | none => EMPTY_FALLBACK), calls + 1, dispatched)
    else
      let res := processToolCalls exec m.tool_calls (msgs ++ [Msg.assistant m]) dispatched
      run_llm_loop_go respond exec fuel res.1 (calls + 1) res.2

/-- bot.py run_llm_loop: seed the conversation with the system prompt and
the user message and run at most MAX_TOOL_ITERATIONS rounds. -/
def run_llm_loop (respond : List Msg → AssistantMsg) (exec : String → String → String)
    (user_message : String) : String × Nat × List String :=
  run_llm_loop_go respond exec MAX_TOOL_ITERATIONS
    [Msg.system SYSTEM_PROMPT, Msg.user user_message] 0 []

/-- A scripted model that requests a tool call in every round. -/
def respondLoopForever : List Msg → AssistantMsg :=
  fun _ => ⟨none, [⟨"call-1", "list_tasks", ""⟩]⟩

/-- A scripted model that first requests the catalog tool set_timezone and
then answers with plain text. -/
def respondSetTz (msgs : List Msg) : AssistantMsg :=
  if msgs.length ≤ 2 then ⟨none, [⟨"call-1", "set_timezone", "\x7b\"timezone\": \"IST\"\x7d"⟩]⟩
  else ⟨some "done", []⟩

/-- A stub executor standing in for execute_tool in loop runs. -/
def execStub : String → String → String := fun _ _ => "ok"

/-! ## Theorems -/

theorem streakGo_run (n : Nat) : ∀ (t : Int) (k : Nat) (rest : List Int),
    (∀ h, rest.head? = some h → t - n - h ≠ 1) →
    streakGo t k (descRun (t - 1) n ++ rest) = k + n := by
  induction n with
  | zero =>
    intro t k rest hgap
    cases rest with
    | nil => simp [descRun, streakGo]
    | cons h tl =>
      have hne : t - h ≠ 1 := by
        have := hgap h rfl
        simpa using this
      simp [descRun, streakGo, hne]
  | succ n ih =>
    intro t k rest hgap
    have hcond : t - (t - 1) = 1 := by ring
    have hrec := ih (t - 1) (k + 1) rest (by
      intro h hh
      have := hgap h hh
      intro hcontra
      apply this
      push_cast
      linarith)
    simp only [descRun, List.cons_append, streakGo, hcond, if_pos, List.append_eq]
    rw [hrec]
    omega

/-- Claim C1: get_habit_streak_count returns 0 on an empty completion list;
on a duplicate-free list of N consecutive calendar days sorted most recent
first it returns N; and walking from the most recent day it stops at the
first pair of counted entries whose difference is not exactly one day, so
entries beyond a gap are never counted (the result on a consecutive run of
length n+1 followed by a gap is n+1 whatever lies beyond the gap). -/
theorem claim_C1_streak :
    get_habit_streak_count [] = 0 ∧
    (∀ (t : Int) (n : Nat), get_habit_streak_count (descRun t n) = n) ∧
    (∀ (t : Int) (n : Nat) (rest : List Int),
      (∀ h, rest.head? = some h → t - n - h ≠ 1) →
      get_habit_streak_count (descRun t (n + 1) ++ rest) = n + 1) := by
  refine ⟨rfl, ?_, ?_⟩
  · intro t n
    cases n with
    | zero => rfl
    | succ n =>
      have h := streakGo_run n t 1 [] (by intro h hh; simp at hh)
      rw [List.append_nil] at h
      simp only [descRun, get_habit_streak_count]
      omega
  · intro t n rest hgap
    have h := streakGo_run n t 1 rest hgap
    simp only [descRun, List.cons_append, get_habit_streak_count]
    omega

/-- Witness for claim C1 at a concrete input: three consecutive days
100, 99, 98 followed by a gap (96 is two days earlier) give streak 3. -/
theorem claim_C1_streak_witness :
    get_habit_streak_count (descRun 100 3 ++ [96]) = 3 :=
  claim_C1_streak.2.2 100 2 [96] (by
    intro h hh
    have hh96 : (96 : Int) = h := by simpa using hh
    subst hh96
    norm_num)

/-- Claim C8 (refuted, code bug): the source does not deduplicate the day
list (the SQL has no DISTINCT), and a duplicated day yields a difference of
0, which breaks the walk: on completion days [10, 10, 9] the code returns
1, while the deduplicated day set [10, 9] yields 2. -/
theorem claim_C8_duplicates_break_streak :
    get_habit_streak_count [10, 10, 9] = 1 ∧
    get_habit_streak_count ([10, 10, 9].dedup) = 2 := by
  constructor <;> decide

theorem mem_range_of_localDate (t o d : Int) (h : localDate t o = d) :
    d * dayUs - o ≤ t ∧ t ≤ d * dayUs + dayUs - 1 - o := by
  have h1 : dayUs * ((t + o) / dayUs) + (t + o) % dayUs = t + o := Int.ediv_add_emod _ _
  have h2 : 0 ≤ (t + o) % dayUs := Int.emod_nonneg _ (by norm_num [dayUs])
  have h3 : (t + o) % dayUs < dayUs := Int.emod_lt_of_pos _ (by norm_num [dayUs])
  unfold localDate at h
  rw [h] at h1
  have hc : dayUs * d = d * dayUs := mul_comm _ _
  constructor <;> linarith

theorem complete_habit_inserts (o : Int) (st : DBState) (hid uid : Nat) (t : Int)
    (howned : st.habits.any (ownsHabit hid uid) = true)
    (hnone : st.completions.any
      (inRange hid (localDate t o * dayUs - o) (localDate t o * dayUs + dayUs - 1 - o)) = false) :
    complete_habit o st hid uid t = (true, ⟨st.habits, st.completions ++ [(hid, t)]⟩) := by
  unfold complete_habit _get_utc_range_for_local_date
  simp only [howned, if_true, hnone]
  simp [hnone]

theorem complete_habit_noop (o : Int) (st : DBState) (hid uid : Nat) (t : Int)
    (howned : st.habits.any (ownsHabit hid uid) = true)
    (hsome : st.completions.any
      (inRange hid (localDate t o * dayUs - o) (localDate t o * dayUs + dayUs - 1 - o)) = true) :
    complete_habit o st hid uid t = (true, st) := by
  unfold complete_habit _get_utc_range_for_local_date
  simp only [howned, if_true]
  simp [hsome]

/-- Claim C2: complete_habit is idempotent per local day.  For a habit owned
by the user, two calls at instants t1 and t2 on the same local calendar day
(user timezone of fixed offset o), starting from a state with no completion
of the habit on that day, both return true and leave exactly one completion
row of the habit inside that local day's UTC range. -/
theorem claim_C2_complete_habit_idempotent (o : Int) (st : DBState) (hid uid : Nat)
    (t1 t2 : Int)
    (howned : st.habits.any (ownsHabit hid uid) = true)
    (hsame : localDate t1 o = localDate t2 o)
    (hfresh : countInRange st hid
      (_get_utc_range_for_local_date (fun _ => o) (localDate t1 o)).1
      (_get_utc_range_for_local_date (fun _ => o) (localDate t1 o)).2 = 0) :
    (complete_habit o st hid uid t1).1 = true ∧
    (complete_habit o (complete_habit o st hid uid t1).2 hid uid t2).1 = true ∧
    countInRange (complete_habit o (complete_habit o st hid uid t1).2 hid uid t2).2 hid
      (_get_utc_range_for_local_date (fun _ => o) (localDate t1 o)).1
      (_get_utc_range_for_local_date (fun _ => o) (localDate t1 o)).2 = 1 := by
  have hrng : _get_utc_range_for_local_date (fun _ => o) (localDate t1 o)
      = (localDate t1 o * dayUs - o, localDate t1 o * dayUs + dayUs - 1 - o) := rfl
  obtain ⟨hs1, he1⟩ := mem_range_of_localDate t1 o (localDate t1 o) rfl
  have hfresh2 : st.completions.countP
      (inRange hid (localDate t1 o * dayUs - o) (localDate t1 o * dayUs + dayUs - 1 - o)) = 0 := by
    simpa [countInRange, hrng] using hfresh
  have hnone : st.completions.any
      (inRange hid (localDate t1 o * dayUs - o) (localDate t1 o * dayUs + dayUs - 1 - o)) = false :=
    List.any_eq_false.mpr (by
      intro x hx
      exact (List.countP_eq_zero.mp hfresh2) x hx)
  have hcall1 := complete_habit_inserts o st hid uid t1 howned hnone
  have hmem : inRange hid (localDate t1 o * dayUs - o)
      (localDate t1 o * dayUs + dayUs - 1 - o) (hid, t1) = true := by
    simp [inRange, hs1, he1]
  have hsome : (st.completions ++ [(hid, t1)]).any
      (inRange hid (localDate t2 o * dayUs - o) (localDate t2 o * dayUs + dayUs - 1 - o)) = true := by
    rw [← hsame]
    exact List.any_eq_true.mpr ⟨(hid, t1), by simp, hmem⟩
  have hcall2 := complete_habit_noop o ⟨st.habits, st.completions ++ [(hid, t1)]⟩ hid uid t2
    (by simpa using howned) (by simpa using hsome)
  rw [hcall1]
  refine ⟨rfl, ?_, ?_⟩
  · rw [hcall2]
  · rw [hcall2]
    simp only [countInRange, hrng, List.countP_append]
    rw [List.countP_eq_zero.mpr (List.countP_eq_zero.mp hfresh2)]
    simp [List.countP, List.countP.go, hmem]

/-- Witness for claim C2: habit 1 of user 7 in a +05:30 zone, completed at
2025-06-01T12:00 UTC and again at 2025-06-01T13:00 UTC (both 2025-06-01
locally): both calls succeed and one completion row lies in the local day. -/
theorem claim_C2_witness :
    (complete_habit kolkataOffset ⟨[(1, 7)], []⟩ 1 7 (usOfCivil 2025 6 1 12 0 0 0)).1 = true ∧
    (complete_habit kolkataOffset
      (complete_habit kolkataOffset ⟨[(1, 7)], []⟩ 1 7 (usOfCivil 2025 6 1 12 0 0 0)).2 1 7
      (usOfCivil 2025 6 1 13 0 0 0)).1 = true ∧
    countInRange (complete_habit kolkataOffset
      (complete_habit kolkataOffset ⟨[(1, 7)], []⟩ 1 7 (usOfCivil 2025 6 1 12 0 0 0)).2 1 7
      (usOfCivil 2025 6 1 13 0 0 0)).2 1
      (_get_utc_range_for_local_date (fun _ => kolkataOffset)
        (localDate (usOfCivil 2025 6 1 12 0 0 0) kolkataOffset)).1
      (_get_utc_range_for_local_date (fun _ => kolkataOffset)
        (localDate (usOfCivil 2025 6 1 12 0 0 0) kolkataOffset)).2 = 1 :=
  claim_C2_complete_habit_idempotent kolkataOffset ⟨[(1, 7)], []⟩ 1 7
    (usOfCivil 2025 6 1 12 0 0 0) (usOfCivil 2025 6 1 13 0 0 0)
    (by decide) (by decide) (by decide)

/-- Claim C6: on the non-degraded path _deadline_local_to_utc satisfies the
round trip: for every zone-naive wall instant and every fixed-offset zone
whose offset is a whole number of seconds, converting to UTC and back to
the zone reproduces the wall clock up to the whole-second truncation the
output format applies; in particular 2025-02-13T17:00:00 in Asia/Kolkata
converts to 2025-02-13T11:30:00Z and converts back to 17:00 local. -/
theorem claim_C6_deadline_roundtrip :
    (∀ (wall o : Int), secUs ∣ o →
      utcToLocal (_deadline_local_to_utc (fun _ => o) (.naive wall)) o = truncSec wall) ∧
    _deadline_local_to_utc (fun _ => kolkataOffset) (.naive (usOfCivil 2025 2 13 17 0 0 0))
      = usOfCivil 2025 2 13 11 30 0 0 ∧
    utcToLocal (usOfCivil 2025 2 13 11 30 0 0) kolkataOffset
      = usOfCivil 2025 2 13 17 0 0 0 := by
  refine ⟨?_, by decide, by decide⟩
  intro wall o hdvd
  obtain ⟨k, hk⟩ := hdvd
  simp only [_deadline_local_to_utc, utcToLocal, truncSec]
  have hsub : wall - o = wall + (-k) * secUs := by rw [hk]; ring
  rw [hsub, Int.add_mul_ediv_right _ _ (by norm_num [secUs])]
  rw [hk]
  ring

/-- Witness for claim C6: the round trip at 2025-06-01T12:00:00.123456
local in Asia/Kolkata reproduces the wall clock truncated to seconds. -/
theorem claim_C6_witness :
    utcToLocal (_deadline_local_to_utc (fun _ => kolkataOffset)
        (.naive (usOfCivil 2025 6 1 12 0 0 123456))) kolkataOffset
      = truncSec (usOfCivil 2025 6 1 12 0 0 123456) :=
  claim_C6_deadline_roundtrip.1 (usOfCivil 2025 6 1 12 0 0 123456) kolkataOffset
    ⟨19800, by norm_num [kolkataOffset, secUs]⟩

/-- Claim C7: _get_utc_range_for_local_date for local date 2025-06-01 under
the America/New_York rules starts exactly at 2025-06-01T04:00:00Z (the DST
offset -04:00 applies, not the standard -05:00) and ends strictly before
2025-06-02T04:00:00Z. -/
theorem claim_C7_ny_day_range :
    (_get_utc_range_for_local_date nyOffsetAt (civilDays 2025 6 1)).1
      = usOfCivil 2025 6 1 4 0 0 0 ∧
    (_get_utc_range_for_local_date nyOffsetAt (civilDays 2025 6 1)).2
      < usOfCivil 2025 6 2 4 0 0 0 := by
  constructor <;> decide

theorem lookup_map_update (uid : Nat) (tz : String) :
    ∀ (s : Settings), (s.lookup uid).isSome = true →
      (s.map (fun p => if p.1 == uid then (p.1, tz) else p)).lookup uid = some tz := by
  intro s
  induction s with
  | nil => intro h; simp [List.lookup] at h
  | cons p rest ih =>
    intro h
    by_cases hp : p.1 = uid
    · have hmap : (if p.1 == uid then (p.1, tz) else p) = (p.1, tz) := by
        simp [hp]
      rw [List.map_cons, hmap]
      have hself : (uid == p.1) = true := by simp [hp]
      simp [List.lookup, hself]
    · have hbeq : (p.1 == uid) = false := beq_eq_false_iff_ne.mpr hp
      have huk : (uid == p.1) = false := beq_eq_false_iff_ne.mpr (Ne.symm hp)
      have hmap : (if p.1 == uid then (p.1, tz) else p) = p := by
        simp [hbeq]
      rw [List.map_cons, hmap]
      have hrest : (rest.lookup uid).isSome = true := by
        simpa [List.lookup, huk] using h
      have hstep : List.lookup uid (p :: rest.map
            (fun q : Nat × String => if q.1 == uid then (q.1, tz) else q))
          = List.lookup uid (rest.map
            (fun q : Nat × String => if q.1 == uid then (q.1, tz) else q)) := by
        simp [List.lookup, huk]
      rw [hstep]
      exact ih hrest

theorem lookup_set_user_timezone (s : Settings) (uid : Nat) (tz : String) :
    (set_user_timezone s uid tz).lookup uid = some tz := by
  unfold set_user_timezone
  split
  case isTrue h => exact lookup_map_update uid tz s h
  case isFalse h => simp [List.lookup]

/-- Claim C9: set_timezone with the alias IST resolves to and stores
Asia/Kolkata and a subsequent get_timezone reflects it; set_timezone with
the unresolvable Mars/Nowhere returns the invalid-timezone error and leaves
the stored settings row untouched. -/
theorem claim_C9_set_timezone (isValidZone : String → Bool) (s : Settings) (uid : Nat)
    (hvalid : isValidZone "Asia/Kolkata" = true)
    (hinvalid : isValidZone "Mars/Nowhere" = false) :
    (execute_settings_tool isValidZone s uid (.set_timezone "IST")).1
      = .setOk "Asia/Kolkata" "Timezone set to Asia/Kolkata" ∧
    get_user_timezone (execute_settings_tool isValidZone s uid (.set_timezone "IST")).2 uid
      = some "Asia/Kolkata" ∧
    (execute_settings_tool isValidZone
        (execute_settings_tool isValidZone s uid (.set_timezone "IST")).2 uid .get_timezone).1
      = .tzInfo (some "Asia/Kolkata") "Your timezone is Asia/Kolkata" ∧
    execute_settings_tool isValidZone s uid (.set_timezone "Mars/Nowhere")
      = (.setErr "Invalid timezone: Mars/Nowhere", s) := by
  have hres : _resolve_timezone isValidZone "IST"
      = if isValidZone "Asia/Kolkata" = true then Except.ok "Asia/Kolkata"
        else Except.error "Invalid timezone: IST" := rfl
  have hresM : _resolve_timezone isValidZone "Mars/Nowhere"
      = if isValidZone "Mars/Nowhere" = true then Except.ok "Mars/Nowhere"
        else Except.error "Invalid timezone: Mars/Nowhere" := rfl
  have hok : _resolve_timezone isValidZone "IST" = Except.ok "Asia/Kolkata" := by
    rw [hres, if_pos hvalid]
  have hbad : _resolve_timezone isValidZone "Mars/Nowhere"
      = Except.error "Invalid timezone: Mars/Nowhere" := by
    rw [hresM, if_neg (by simp [hinvalid])]
  have hstore : get_user_timezone (set_user_timezone s uid "Asia/Kolkata") uid
      = some "Asia/Kolkata" := by
    unfold get_user_timezone
    rw [lookup_set_user_timezone]
    simp
  refine ⟨?_, ?_, ?_, ?_⟩
  · simp [execute_settings_tool, hok]
  · simp [execute_settings_tool, hok, hstore]
  · simp [execute_settings_tool, hok, hstore]
  · simp [execute_settings_tool, hbad]

/-- Witness for claim C9: under the concrete tz database model, user 7 in
an empty settings table. -/
theorem claim_C9_witness :
    (execute_settings_tool tzdbValid [] 7 (.set_timezone "IST")).1
      = .setOk "Asia/Kolkata" "Timezone set to Asia/Kolkata" ∧
    get_user_timezone (execute_settings_tool tzdbValid [] 7 (.set_timezone "IST")).2 7
      = some "Asia/Kolkata" ∧
    (execute_settings_tool tzdbValid
        (execute_settings_tool tzdbValid [] 7 (.set_timezone "IST")).2 7 .get_timezone).1
      = .tzInfo (some "Asia/Kolkata") "Your timezone is Asia/Kolkata" ∧
    execute_settings_tool tzdbValid [] 7 (.set_timezone "Mars/Nowhere")
      = (.setErr "Invalid timezone: Mars/Nowhere", []) :=
  claim_C9_set_timezone tzdbValid [] 7 (by decide) (by decide)

/-- Claim C10: a stored timezone equal to the literal string UTC is
indistinguishable from an unset one: set_timezone "UTC" succeeds and stores
it, yet get_user_timezone returns none afterwards, and the get_timezone
tool reports the not-configured payload, exactly as for a user with no
settings row. -/
theorem claim_C10_utc_sentinel (isValidZone : String → Bool) (s : Settings) (uid : Nat)
    (hvalid : isValidZone "UTC" = true) :
    (execute_settings_tool isValidZone s uid (.set_timezone "UTC")).1
      = .setOk "UTC" "Timezone set to UTC" ∧
    get_user_timezone (execute_settings_tool isValidZone s uid (.set_timezone "UTC")).2 uid
      = none ∧
    (execute_settings_tool isValidZone
        (execute_settings_tool isValidZone s uid (.set_timezone "UTC")).2 uid .get_timezone).1
      = .tzInfo none "Timezone not set; using UTC by default. Set it for accurate reminders." ∧
    (execute_settings_tool isValidZone ([] : Settings) uid .get_timezone).1
      = .tzInfo none "Timezone not set; using UTC by default. Set it for accurate reminders." := by
  have hres : _resolve_timezone isValidZone "UTC"
      = if isValidZone "UTC" = true then Except.ok "UTC"
        else Except.error "Invalid timezone: UTC" := rfl
  have hok : _resolve_timezone isValidZone "UTC" = Except.ok "UTC" := by
    rw [hres, if_pos hvalid]
  have hstore : get_user_timezone (set_user_timezone s uid "UTC") uid = none := by
    unfold get_user_timezone
    rw [lookup_set_user_timezone]
    simp
  refine ⟨?_, ?_, ?_, ?_⟩
  · simp [execute_settings_tool, hok]
  · simp [execute_settings_tool, hok, hstore]
  · simp [execute_settings_tool, hok, hstore]
  · simp [execute_settings_tool, get_user_timezone]

/-- Witness for claim C10: under the concrete tz database model, user 7
with a previously stored Asia/Kolkata row. -/
theorem claim_C10_witness :
    (execute_settings_tool tzdbValid [(7, "Asia/Kolkata")] 7 (.set_timezone "UTC")).1
      = .setOk "UTC" "Timezone set to UTC" ∧
    get_user_timezone
      (execute_settings_tool tzdbValid [(7, "Asia/Kolkata")] 7 (.set_timezone "UTC")).2 7
      = none ∧
    (execute_settings_tool tzdbValid
        (execute_settings_tool tzdbValid [(7, "Asia/Kolkata")] 7 (.set_timezone "UTC")).2 7
        .get_timezone).1
      = .tzInfo none "Timezone not set; using UTC by default. Set it for accurate reminders." ∧
    (execute_settings_tool tzdbValid ([] : Settings) 7 .get_timezone).1
      = .tzInfo none "Timezone not set; using UTC by default. Set it for accurate reminders." :=
  claim_C10_utc_sentinel tzdbValid [(7, "Asia/Kolkata")] 7 (by decide)

/-- Claim C4: execute_tool never propagates a handler exception.  In the
embedding execute_tool is a total function into result strings (exceptions
of handlers live in Except and are consumed at the dispatch boundary): an
unregistered name yields the structured unknown-tool error payload, and a
handler that raises yields the structured error payload with its message. -/
theorem claim_C4_dispatch_isolates (fns : List (String × Handler)) (tool_name : String)
    (args : Args) (uid : Nat) :
    (fns.lookup tool_name = none →
      execute_tool fns tool_name args uid = jsonError ("Unknown tool: " ++ tool_name)) ∧
    (∀ (fn : Handler) (msg : String), fns.lookup tool_name = some fn →
      fn tool_name args uid = .error msg →
      execute_tool fns tool_name args uid = jsonError msg) := by
  constructor
  · intro h
    simp [execute_tool, h]
  · intro fn msg h1 h2
    simp [execute_tool, h1, h2]

/-- Witness for claim C4: an unregistered name and a raising handler both
produce structured error payloads. -/
theorem claim_C4_witness :
    execute_tool failingHandlers "nope" [] 0 = jsonError "Unknown tool: nope" ∧
    execute_tool failingHandlers "boom_tool" [] 0 = jsonError "kaboom" :=
  ⟨(claim_C4_dispatch_isolates failingHandlers "nope" [] 0).1 rfl,
   (claim_C4_dispatch_isolates failingHandlers "boom_tool" [] 0).2 _ "kaboom" rfl rfl⟩

theorem run_llm_loop_go_limit (respond : List Msg → AssistantMsg)
    (exec : String → String → String)
    (h : ∀ msgs, (respond msgs).tool_calls ≠ []) :
    ∀ (fuel : Nat) (msgs : List Msg) (calls : Nat) (dispatched : List String),
      (run_llm_loop_go respond exec fuel msgs calls dispatched).1 = LIMIT_MESSAGE ∧
      (run_llm_loop_go respond exec fuel msgs calls dispatched).2.1 = calls + fuel := by
  intro fuel
  induction fuel with
  | zero => intro msgs calls dispatched; exact ⟨rfl, rfl⟩
  | succ fuel ih =>
    intro msgs calls dispatched
    cases hl : (respond msgs).tool_calls with
    | nil => exact absurd hl (h msgs)
    | cons a l =>
      simp only [run_llm_loop_go, hl, List.isEmpty_cons, Bool.and_false, Bool.false_eq_true,
        if_false]
      have := ih (processToolCalls exec (a :: l)
        (msgs ++ [Msg.assistant (respond msgs)]) dispatched).1 (calls + 1)
        (processToolCalls exec (a :: l)
        (msgs ++ [Msg.assistant (respond msgs)]) dispatched).2
      constructor
      · rw [← hl] at this ⊢
        exact this.1
      · rw [← hl] at this ⊢
        rw [this.2]
        omega

/-- Claim C3: if the model response never satisfies a terminal condition
(that is, every round requests at least one tool call), the loop returns
the fixed limit-reached fallback after exactly MAX_TOOL_ITERATIONS = 5
model calls, so at most 5 calls are made and no 6th call ever happens. -/
theorem claim_C3_loop_bounded (respond : List Msg → AssistantMsg)
    (exec : String → String → String) (user_message : String)
    (h : ∀ msgs, (respond msgs).tool_calls ≠ []) :
    (run_llm_loop respond exec user_message).1 = LIMIT_MESSAGE ∧
    (run_llm_loop respond exec user_message).2.1 = MAX_TOOL_ITERATIONS := by
  have := run_llm_loop_go_limit respond exec h MAX_TOOL_ITERATIONS
    [Msg.system SYSTEM_PROMPT, Msg.user user_message] 0 []
  exact ⟨this.1, this.2⟩

/-- Witness for claim C3: a scripted model that requests a tool call in
every round drives the loop to the limit message after exactly 5 calls. -/
theorem claim_C3_witness :
    (run_llm_loop respondLoopForever execStub "hi").1 = LIMIT_MESSAGE ∧
    (run_llm_loop respondLoopForever execStub "hi").2.1 = MAX_TOOL_ITERATIONS :=
  claim_C3_loop_bounded respondLoopForever execStub "hi"
    (by intro msgs; simp [respondLoopForever])

/-- Claim C5 (refuted, code bug): the loop does not dispatch every catalog
tool.  set_timezone is in the TOOLS_SCHEMA catalog sent to the model and is
registered in AVAILABLE_FUNCTIONS, but it is absent from the hardcoded
allow-tuple in bot.py, so a model request for it is silently skipped: in a
run whose first round requests set_timezone, nothing is dispatched and no
tool message is produced, and the loop goes on to return the second round's
text. -/
theorem claim_C5_settings_tools_skipped :
    TOOLS_SCHEMA_names.contains "set_timezone" = true ∧
    AVAILABLE_FUNCTIONS_keys.contains "set_timezone" = true ∧
    allowedToolNames.contains "set_timezone" = false ∧
    run_llm_loop respondSetTz execStub "set my timezone to IST" = ("done", 2, []) := by
  refine ⟨by decide, by decide, by decide, ?_⟩
  rfl

end Assistant
